import Mathlib

/-!
Verification of the header-chain core in `src/c2_blockchain/p1_header_chain.rs`.

The Rust code defines a `Header` struct (`parent : u64`, `height : u64`, three
unit placeholder fields) with three operations: `genesis`, `child`, and
`verify_sub_chain`.  We embed them shallowly: `u64` values become `Nat`
(the only arithmetic the code performs on them is `height - 1`, which in the
debug profile used by `cargo test` panics on underflow, so subtraction is
modelled as a checked operation returning `Option Nat`), slices become lists,
and a call that would panic is modelled as `none`.
-/

namespace HeaderChain

/-- `type Hash = u64` in the source: digests are 64-bit words, modelled as
naturals below `2 ^ 64`. -/
def u64Mod : Nat := 2 ^ 64

/-- The `Header` struct of the source: `parent`, `height` and three
placeholder fields of unit type. -/
structure Header where
  parent : Nat
  height : Nat
  extrinsics_root : Unit
  state_root : Unit
  consensus_digest : Unit
deriving DecidableEq, Repr

/-- Modelled from the spec: the crate-level `hash` helper (`crate::hash`,
Rust's built-in structural hasher with `u64` output) is not under `src/`.
The spec requires only a deterministic function of the header's fields with
fixed-width output, sensitive to `parent` and `height`, whose value on real
headers is essentially never the zero sentinel.  We model it as a concrete
mixing function reduced mod `2 ^ 64`. -/
def hash (h : Header) : Nat :=
  (h.parent * 1000003 + h.height * 65537 + 1) % u64Mod

/-- `Hash::default()` for `u64` is `0`: the sentinel parent digest. -/
def hashDefault : Nat := 0

/-- `Header::genesis` from the source: height `0`, parent the default digest,
placeholders at their unit value. -/
def Header.genesis : Header :=
  { parent := hashDefault, height := 0,
    extrinsics_root := (), state_root := (), consensus_digest := () }

instance : Inhabited Header := ⟨Header.genesis⟩

/-- `Header::child` from the source.  Note that the source binds
`parent_block` to `Self::genesis()` rather than to `self`, so the receiver is
never read; the embedding reproduces that faithfully. -/
def Header.child (self : Header) : Header :=
  let parent_block := Header.genesis
  let parent := hash parent_block
  let height := parent_block.height + 1
  { parent_block with parent := parent, height := height }

/-- Rust `u64` subtraction under the test (debug) profile: underflow panics,
which we model as `none`. -/
def checkedSub (a b : Nat) : Option Nat :=
  if b ≤ a then some (a - b) else none

/-- The `for i in 0..chain.len()-1` loop body of `verify_sub_chain`: it sets
`check` to `true` whenever the hash link of pair `i` matches and otherwise
leaves `check` unchanged (the source has no `else` branch and never assigns
`false` inside the loop). -/
def verifyLoop (chain : List Header) (check : Bool) : Bool :=
  (List.range (chain.length - 1)).foldl
    (fun ck i =>
      if hash (chain.getD i default) = (chain.getD (i + 1) default).parent then true
      else ck)
    check

/-- `Header::verify_sub_chain` from the source.  `check` starts `true`; for a
non-empty chain it becomes the short-circuit conjunction
`hash(self) == chain[0].parent && self.height == chain[0].height - 1`
(the subtraction is only reached when the first conjunct holds, and panics —
`none` — when `chain[0].height` is `0`); when that first check holds the loop
runs and its final flag is the result, otherwise the loop is skipped. -/
def Header.verify_sub_chain (self : Header) (chain : List Header) : Option Bool :=
  let parent_block := self
  let genesis_hash := hash parent_block
  if 0 < chain.length then
    if genesis_hash = (chain.getD 0 default).parent then
      match checkedSub (chain.getD 0 default).height 1 with
      | none => none
      | some hm1 =>
          if parent_block.height = hm1 then some (verifyLoop chain true)
          else some false
    else some false
  else some true

/-- The loop of `verify_sub_chain` can never turn a `true` flag off: both
branches of its body map a `true` accumulator to `true`. -/
theorem verifyLoop_true (chain : List Header) : verifyLoop chain true = true := by
  unfold verifyLoop
  generalize List.range (chain.length - 1) = l
  induction l with
  | nil => rfl
  | cons x xs ih =>
      simpa [List.foldl_cons, ite_self] using ih

/-- On a non-empty chain, `verify_sub_chain` is determined entirely by the
head: a failed parent check gives `some false`; otherwise `height - 1` is
taken (underflowing to `none` at height `0`) and compared with the trusted
height, a match giving `some true` via the loop. -/
theorem verify_cons (t c0 : Header) (cs : List Header) :
    Header.verify_sub_chain t (c0 :: cs) =
      if hash t = c0.parent then
        match checkedSub c0.height 1 with
        | none => none
        | some hm1 => if t.height = hm1 then some true else some false
      else some false := by
  unfold Header.verify_sub_chain
  simp only [List.length_cons, List.getD_cons_zero, Nat.zero_lt_succ, if_pos]
  rcases h : checkedSub c0.height 1 with _ | hm1
  · rfl
  · by_cases hh : t.height = hm1 <;> simp [hh, verifyLoop_true]

/-- On a non-empty chain, `verify_sub_chain` returns `some true` exactly when
the head's parent matches the trusted hash, the head's height is positive (so
the subtraction does not panic) and the trusted height equals that height
minus one. -/
theorem verify_cons_true_iff (t c0 : Header) (cs : List Header) :
    Header.verify_sub_chain t (c0 :: cs) = some true ↔
      (hash t = c0.parent ∧ 1 ≤ c0.height ∧ t.height = c0.height - 1) := by
  rw [verify_cons]
  by_cases hp : hash t = c0.parent
  · rw [if_pos hp]
    by_cases h1 : 1 ≤ c0.height
    · have hs : checkedSub c0.height 1 = some (c0.height - 1) := by
        unfold checkedSub; rw [if_pos h1]
      rw [hs]
      by_cases hh : t.height = c0.height - 1
      · simp [hp, h1, hh]
      · simp [hh]
    · have hs : checkedSub c0.height 1 = none := by
        unfold checkedSub; rw [if_neg h1]
      rw [hs]; simp [h1]
  · rw [if_neg hp]; simp [hp]

/-- C1 is violated by the code: with trusted header `genesis` and candidate
sequence `[b1, x]` where `b1 = genesis.child` links correctly but the pair
`(b1, x)` fails both the hash-link check and the height check,
`verify_sub_chain` still returns `some true`, because the scan loop only ever
sets its flag to `true` and never back to `false`. -/
theorem c1_broken_pair_accepted :
    hash Header.genesis.child ≠ (Header.mk 0 5 () () ()).parent ∧
    (Header.mk 0 5 () () ()).height ≠ Header.genesis.child.height + 1 ∧
    Header.verify_sub_chain Header.genesis
        [Header.genesis.child, Header.mk 0 5 () () ()] = some true := by
  decide

/-- C2 is violated by the code: `child` binds its parent block to
`Self::genesis()` instead of `self`, so the child of the height-1 header
`genesis.child` again has height 1 (not 2) and parent `hash(genesis)` (not
the hash of its receiver). -/
theorem c2_child_ignores_receiver :
    Header.genesis.child.child.height ≠ Header.genesis.child.height + 1 ∧
    Header.genesis.child.child.parent ≠ hash Header.genesis.child := by
  decide

/-- C3 is violated by the code: when the first candidate header has height 0
and its parent digest matches the trusted hash, `verify_sub_chain` computes
`chain[0].height - 1` on a `u64`, which underflows and panics in the debug
profile (modelled as `none` instead of a boolean). -/
theorem c3_verify_underflow_panics :
    Header.verify_sub_chain Header.genesis
        [Header.mk (hash Header.genesis) 0 () () ()] = none := by
  decide

/-- C4 is violated by the code: with `g = genesis`, `b1 = g.child`,
`b2 = b1.child`, `b3 = b2.child`, whole-sequence verification returns
`some true` while the pairwise fold contains `verify(b1, [b2]) = some false`
(since `child` ignores its receiver, `b2 = b1`, whose parent digest is
`hash(g)`, not `hash(b1)`), so the two sides disagree. -/
theorem c4_composability_fails :
    Header.verify_sub_chain Header.genesis
        [Header.genesis.child, Header.genesis.child.child,
         Header.genesis.child.child.child] = some true ∧
    Header.verify_sub_chain Header.genesis [Header.genesis.child] = some true ∧
    Header.verify_sub_chain Header.genesis.child
        [Header.genesis.child.child] = some false ∧
    Header.verify_sub_chain Header.genesis.child.child
        [Header.genesis.child.child.child] = some false := by
  decide

/-- C5 as stated is false on the code: the candidate head
`{parent := hash(genesis), height := 0}` has height different from
`genesis.height + 1`, yet `verify_sub_chain` does not return `some false` —
the `height - 1` subtraction underflows first (result `none`). -/
theorem c5_counterexample :
    (Header.mk (hash Header.genesis) 0 () () ()).height ≠ Header.genesis.height + 1 ∧
    Header.verify_sub_chain Header.genesis
        [Header.mk (hash Header.genesis) 0 () () ()] ≠ some false := by
  decide

/-- C5 (amended): for a non-empty candidate sequence, if the head's parent
digest differs from the hash of the trusted header, or the head's height is
positive and differs from the trusted height plus one, then
`verify_sub_chain` returns `some false`. -/
theorem c5_first_header_checks_reject (t c0 : Header) (cs : List Header)
    (h : c0.parent ≠ hash t ∨ (1 ≤ c0.height ∧ c0.height ≠ t.height + 1)) :
    Header.verify_sub_chain t (c0 :: cs) = some false := by
  rw [verify_cons]
  by_cases hp : hash t = c0.parent
  · rcases h with h | ⟨h1, h2⟩
    · exact absurd hp.symm h
    · have hs : checkedSub c0.height 1 = some (c0.height - 1) := by
        unfold checkedSub; rw [if_pos h1]
      have hne : t.height ≠ c0.height - 1 := fun he => h2 (by omega)
      rw [if_pos hp, hs]
      simp [hne]
  · rw [if_neg hp]

/-- Witness for the amended C5 at a concrete input: the head
`{parent := 0, height := 5}` fails the parent check against `genesis` and is
rejected. -/
theorem c5_first_header_checks_reject_witness :
    ((Header.mk 0 5 () () ()).parent ≠ hash Header.genesis ∨
      (1 ≤ (Header.mk 0 5 () () ()).height ∧
       (Header.mk 0 5 () () ()).height ≠ Header.genesis.height + 1)) ∧
    Header.verify_sub_chain Header.genesis [Header.mk 0 5 () () ()] = some false :=
  ⟨Or.inl (by decide),
   c5_first_header_checks_reject Header.genesis (Header.mk 0 5 () () ()) []
     (Or.inl (by decide))⟩

/-- C6: on a non-empty candidate sequence whose head has height at least 1,
`verify_sub_chain` returns `some true` exactly when the head's parent digest
equals the hash of the trusted header and its height equals the trusted
height plus one; and the headers after the head never affect the result. -/
theorem c6_first_header_decides (t c0 : Header) (cs cs' : List Header)
    (h1 : 1 ≤ c0.height) :
    (Header.verify_sub_chain t (c0 :: cs) = some true ↔
      (c0.parent = hash t ∧ c0.height = t.height + 1)) ∧
    Header.verify_sub_chain t (c0 :: cs) = Header.verify_sub_chain t (c0 :: cs') := by
  constructor
  · rw [verify_cons_true_iff]
    constructor
    · rintro ⟨hp, _, hh⟩
      exact ⟨hp.symm, by omega⟩
    · rintro ⟨hp, hh⟩
      exact ⟨hp.symm, h1, by omega⟩
  · rw [verify_cons, verify_cons]

/-- Witness for C6 at a concrete input: against `genesis`, the sequences
`[genesis.child]` and `[genesis.child, genesis.child]` verify identically and
the iff holds for the head `genesis.child`. -/
theorem c6_first_header_decides_witness :
    1 ≤ Header.genesis.child.height ∧
    ((Header.verify_sub_chain Header.genesis [Header.genesis.child] = some true ↔
      (Header.genesis.child.parent = hash Header.genesis ∧
       Header.genesis.child.height = Header.genesis.height + 1)) ∧
     Header.verify_sub_chain Header.genesis [Header.genesis.child] =
       Header.verify_sub_chain Header.genesis
         [Header.genesis.child, Header.genesis.child]) :=
  ⟨by decide,
   c6_first_header_decides Header.genesis Header.genesis.child []
     [Header.genesis.child] (by decide)⟩

/-- C7: the empty extension verifies as `some true` against any trusted
header. -/
theorem c7_verify_empty (t : Header) : Header.verify_sub_chain t [] = some true := rfl

/-- C8: `genesis` takes no input, is a constant (hence deterministic and
total), and has height 0, parent equal to the zero sentinel digest
(`Hash::default()`), and unit placeholder fields. -/
theorem c8_genesis_contract :
    Header.genesis.height = 0 ∧ Header.genesis.parent = hashDefault ∧
    hashDefault = 0 ∧ Header.genesis.extrinsics_root = () ∧
    Header.genesis.state_root = () ∧ Header.genesis.consensus_digest = () := by
  decide

/-- C9: `child` is independent of its receiver — for every header `h`,
`h.child` equals `genesis.child`, with height 1, parent `hash(genesis)`, and
unit placeholder fields. -/
theorem c9_child_constant (h : Header) :
    h.child = Header.genesis.child ∧ h.child.height = 1 ∧
    h.child.parent = hash Header.genesis ∧ h.child.extrinsics_root = () ∧
    h.child.state_root = () ∧ h.child.consensus_digest = () :=
  ⟨rfl, rfl, rfl, rfl, rfl, rfl⟩

/-- C10: `verify_sub_chain` is modelled as a pure function of its arguments
(the Rust function takes only immutable borrows and touches no shared state),
so any two calls on equal inputs return the same boolean. -/
theorem c10_verify_deterministic (t t' : Header) (c c' : List Header)
    (ht : t = t') (hc : c = c') :
    Header.verify_sub_chain t c = Header.verify_sub_chain t' c' := by
  rw [ht, hc]

/-- Witness for C10 at a concrete input. -/
theorem c10_verify_deterministic_witness :
    Header.genesis = Header.genesis ∧ ([] : List Header) = [] ∧
    Header.verify_sub_chain Header.genesis [] =
      Header.verify_sub_chain Header.genesis [] :=
  ⟨rfl, rfl, c10_verify_deterministic Header.genesis Header.genesis [] [] rfl rfl⟩

end HeaderChain
